import Mathlib

/-!
Verification development for the `enet-rs` event layer (`src/event.rs`).

The file embeds the event module shallowly: Rust methods become pure Lean
functions, mutation of the borrowed `Peer` becomes explicit state passing,
and every invocation of `Peer::cleanup_after_disconnect` is recorded in an
explicit trace of `Action`s so that "cleanup fires at most once" style
properties are countable.  The collaborators `Peer`, `PeerID`, `Packet` and
`Host` live outside the given source tree, so their state is modelled from
the specification; the event logic itself (`from_sys_event`, the accessors,
`take_type`, `cleanup_after_disconnect`, `Drop`) is translated from
`src/event.rs`.
-/

namespace Enet

/-- Modelled from the spec: `Packet` is an owned byte buffer plus a
reliability classification (flags); the event layer only moves it around. -/
structure Packet where
  bytes : List Nat
  flags : Nat
deriving Repr, DecidableEq

/-- Modelled from the spec: `PeerID` is a generation-stamped handle, a slot
index plus the slot generation counter at mint time. -/
structure PeerID where
  index : Nat
  generation : Nat
deriving Repr, DecidableEq

/-- Modelled from the spec: a `Peer` owns an opaque application payload slot
(`data`, present or absent) and its slot generation counter. -/
structure Peer (T : Type) where
  data : Option T
  generation : Nat
deriving Repr

/-- An observable peer-mutating action of the event layer.  `peerCleanup g`
records one invocation of `Peer::cleanup_after_disconnect` on a peer whose
slot generation was `g` at the moment of the call. -/
inductive Action where
  | peerCleanup (gen : Nat)
deriving Repr, DecidableEq

/-- Modelled from the spec: `Peer::cleanup_after_disconnect` destroys the
application payload and marks the slot so that its current generation no
longer validates (the generation counter advances).  The invocation is
recorded in the returned trace. -/
def Peer.cleanup_after_disconnect (p : Peer T) : Peer T × List Action :=
  ({ data := none, generation := p.generation + 1 }, [Action.peerCleanup p.generation])

/-- The event-kind payload, translated from `enum EventType` in
`src/event.rs`: `Connect`, `Disconnect { data: u32 }`,
`Receive { channel_id: u8, packet: Packet }`. -/
inductive EventType where
  | Connect
  | Disconnect (data : Nat)
  | Receive (channel_id : Nat) (packet : Packet)
deriving Repr, DecidableEq

/-- Whether an event kind is the `Disconnect` variant. -/
def EventType.isDisconnect : EventType → Bool
  | .Disconnect _ => true
  | _ => false

/-- Translated from `struct Event<'a, T>` in `src/event.rs`: the borrowed
peer (its state threaded explicitly), the minted `PeerID`, and the kind. -/
structure Event (T : Type) where
  peer : Peer T
  peer_id : PeerID
  type : EventType
deriving Repr

/-- Modelled from the spec: the `Host` owns the table of peer slots; a raw
peer handle is the index of a slot in that table. -/
structure Host (T : Type) where
  slots : List (Peer T)

/-- Modelled from the spec: resolving a raw peer handle against the host's
slot table (the `Peer::new_mut(&mut *event_sys.peer)` borrow).  Resolution
never fails for a freshly emitted transport event; out-of-table handles
read an empty slot. -/
def Host.resolvePeer (host : Host T) (handle : Nat) : Peer T :=
  host.slots.getD handle { data := none, generation := 0 }

/-- Modelled from the spec: `host.peer_id(raw)` mints a fresh
generation-stamped `PeerID` for the slot the handle resolves to. -/
def Host.peer_id (host : Host T) (handle : Nat) : PeerID :=
  { index := handle, generation := (host.resolvePeer handle).generation }

/-- Raw event-kind constant `_ENetEventType_ENET_EVENT_TYPE_NONE`. -/
def ENET_EVENT_TYPE_NONE : Nat := 0

/-- Raw event-kind constant `_ENetEventType_ENET_EVENT_TYPE_CONNECT`. -/
def ENET_EVENT_TYPE_CONNECT : Nat := 1

/-- Raw event-kind constant `_ENetEventType_ENET_EVENT_TYPE_DISCONNECT`. -/
def ENET_EVENT_TYPE_DISCONNECT : Nat := 2

/-- Raw event-kind constant `_ENetEventType_ENET_EVENT_TYPE_RECEIVE`. -/
def ENET_EVENT_TYPE_RECEIVE : Nat := 3

/-- Modelled from the spec: the raw packet handed over by the transport
engine on a receive event (payload bytes plus flags). -/
structure RawPacket where
  bytes : List Nat
  flags : Nat
deriving Repr, DecidableEq

/-- Modelled from the spec: `Packet::from_sys_packet` takes ownership of the
raw payload as a fresh `Packet`. -/
def Packet.from_sys_packet (p : RawPacket) : Packet :=
  { bytes := p.bytes, flags := p.flags }

/-- The raw transport-level event `ENetEvent`: a raw kind value, a raw peer
handle, the receive channel id, the 32-bit application data word, and the
raw packet. -/
structure ENetEvent where
  type_ : Nat
  peer : Nat
  channelID : Nat
  data : Nat
  packet : RawPacket

/-- Outcome of `Event::from_sys_event`: a normal return of
`Option<Event>`, or a panic carrying the unrecognized raw kind value. -/
inductive FromSysResult (T : Type) where
  | ok (result : Option (Event T))
  | panic (unrecognizedType : Nat)

/-- Translated from `Event::from_sys_event` in `src/event.rs`: return
`None` for a raw `NONE` kind; otherwise resolve the peer and mint a
`PeerID`, classify `CONNECT`/`DISCONNECT`/`RECEIVE` into the typed kind,
and panic on any other raw value. -/
def Event.from_sys_event (event_sys : ENetEvent) (host : Host T) :
    FromSysResult T :=
  if event_sys.type_ = ENET_EVENT_TYPE_NONE then
    FromSysResult.ok none
  else
    let peer := host.resolvePeer event_sys.peer
    let peer_id := host.peer_id event_sys.peer
    if event_sys.type_ = ENET_EVENT_TYPE_CONNECT then
      FromSysResult.ok (some
        { peer := peer, peer_id := peer_id,
          type := EventType.Connect })
    else if event_sys.type_ = ENET_EVENT_TYPE_DISCONNECT then
      FromSysResult.ok (some
        { peer := peer, peer_id := peer_id,
          type := EventType.Disconnect event_sys.data })
    else if event_sys.type_ = ENET_EVENT_TYPE_RECEIVE then
      FromSysResult.ok (some
        { peer := peer, peer_id := peer_id,
          type := EventType.Receive event_sys.channelID
            (Packet.from_sys_packet event_sys.packet) })
    else
      FromSysResult.panic event_sys.type_

/-- Translated from `Event::peer` in `src/event.rs`: a shared borrow of the
bound peer; the event state passes through unchanged. -/
def Event.peerRef (e : Event T) : Peer T × Event T :=
  (e.peer, e)

/-- Translated from `Event::peer_id` in `src/event.rs`: returns the copied
`PeerID`; the event state passes through unchanged. -/
def Event.peerIdVal (e : Event T) : PeerID × Event T :=
  (e.peer_id, e)

/-- Translated from `Event::r#type` in `src/event.rs`: a shared borrow of
the kind; the event state passes through unchanged. -/
def Event.typeRef (e : Event T) : EventType × Event T :=
  (e.type, e)

/-- Translated from `Event::cleanup_after_disconnect` in `src/event.rs`:
match on the current kind, invoking the peer cleanup exactly on
`Disconnect` and doing nothing on `Connect` and `Receive`. -/
def Event.cleanup_after_disconnect (e : Event T) : Event T × List Action :=
  match e.type with
  | EventType.Disconnect _ =>
      let pt := Peer.cleanup_after_disconnect e.peer
      ({ e with peer := pt.1 }, pt.2)
  | EventType.Connect => (e, [])
  | EventType.Receive _ _ => (e, [])

/-- Translated from `impl Drop for Event` in `src/event.rs`: the destructor
runs `cleanup_after_disconnect` on the current state. -/
def Event.drop (e : Event T) : Event T × List Action :=
  Event.cleanup_after_disconnect e

/-- Result of `Event::take_type`: the returned payload, the state of the
event value at the `std::mem::forget(self)` call, whether the destructor
was suppressed by that call, and the trace of peer actions performed. -/
structure TakeTypeResult (T : Type) where
  result : EventType
  final : Event T
  dropSuppressed : Bool
  trace : List Action

/-- Translated from `Event::take_type` in `src/event.rs`: first run
`cleanup_after_disconnect` on the current kind, then swap the kind field
with `EventType::Connect`, then `std::mem::forget(self)` (destructor
suppressed) and return the swapped-out original kind. -/
def Event.take_type (e : Event T) : TakeTypeResult T :=
  let ct := Event.cleanup_after_disconnect e
  let taken := ct.1.type
  let final := { ct.1 with type := EventType.Connect }
  { result := taken, final := final, dropSuppressed := true, trace := ct.2 }

/-- Sample packet used to exercise the theorems on concrete inputs. -/
def samplePacket : Packet :=
  { bytes := [1, 2], flags := 0 }

/-- Sample peer with a live payload, slot generation 2. -/
def samplePeer : Peer Nat :=
  { data := some 7, generation := 2 }

/-- Sample `PeerID` minted for `samplePeer`. -/
def samplePeerID : PeerID :=
  { index := 0, generation := 2 }

/-- Sample receive event bound to `samplePeer`. -/
def sampleReceiveEvent : Event Nat :=
  { peer := samplePeer, peer_id := samplePeerID,
    type := EventType.Receive 3 samplePacket }

/-- C1: for every `Event`, the two completion paths produce identical
cleanup behavior: `take_type` and the `Drop` destructor perform the same
peer transformation and emit the same action trace, namely one invocation
of `Peer::cleanup_after_disconnect` exactly when the kind is `Disconnect`
and nothing when the kind is `Connect` or `Receive`. -/
theorem takeType_drop_same_cleanup (T : Type) (e : Event T) :
    (Event.take_type e).trace = (Event.drop e).2
    ∧ (Event.take_type e).final.peer = (Event.drop e).1.peer
    ∧ Event.drop e =
        (match e.type with
         | EventType.Disconnect _ =>
             ({ e with peer := (Peer.cleanup_after_disconnect e.peer).1 },
              [Action.peerCleanup e.peer.generation])
         | EventType.Connect => (e, [])
         | EventType.Receive _ _ => (e, [])) := by
  cases e with
  | mk p pid t => cases t <;> exact ⟨rfl, rfl, rfl⟩

/-- C2: peer cleanup fires at most once per `Event` lifetime: the
`take_type` path followed by a (suppressed) destructor run fires at most
one cleanup action, `take_type` replaces the kind with `Connect` and
suppresses the destructor so a destruction-time run on the leftover state
fires nothing, and the plain destruction path also fires at most once. -/
theorem cleanup_fires_at_most_once (T : Type) (e : Event T) :
    ((Event.take_type e).trace
        ++ (Event.drop (Event.take_type e).final).2).length ≤ 1
    ∧ (Event.take_type e).dropSuppressed = true
    ∧ (Event.take_type e).final.type = EventType.Connect
    ∧ (Event.drop (Event.take_type e).final).2 = []
    ∧ ((Event.drop e).2).length ≤ 1 := by
  cases e with
  | mk p pid t =>
    cases t <;>
      simp [Event.take_type, Event.drop, Event.cleanup_after_disconnect,
        Peer.cleanup_after_disconnect]

/-- C3: `take_type` follows the specified step order: the action trace is
the cleanup decided by the kind current at entry, the internal kind field
is then replaced by the placeholder `Connect` (on which the destruction
logic is a no-op), the destructor is suppressed, and the original payload
is returned. -/
theorem takeType_step_order (T : Type) (e : Event T) :
    Event.take_type e =
      { result := e.type,
        final :=
          { (Event.cleanup_after_disconnect e).1 with type := EventType.Connect },
        dropSuppressed := true,
        trace := (Event.cleanup_after_disconnect e).2 }
    ∧ Event.drop
        { (Event.cleanup_after_disconnect e).1 with type := EventType.Connect }
      = ({ (Event.cleanup_after_disconnect e).1 with type := EventType.Connect },
         []) := by
  cases e with
  | mk p pid t => cases t <;> exact ⟨rfl, rfl⟩

/-- C4: `take_type` returns exactly the `EventType` the event held before
the call; in particular a `Receive` payload keeps its channel id and packet
bytes, and a `Disconnect` payload keeps its reason code. -/
theorem takeType_returns_original_payload (T : Type) (p : Peer T)
    (pid : PeerID) (ch d : Nat) (pkt : Packet) (e : Event T) :
    (Event.take_type e).result = e.type
    ∧ (Event.take_type
        { peer := p, peer_id := pid,
          type := EventType.Receive ch pkt }).result = EventType.Receive ch pkt
    ∧ (Event.take_type
        { peer := p, peer_id := pid,
          type := EventType.Disconnect d }).result = EventType.Disconnect d := by
  refine ⟨?_, rfl, rfl⟩
  cases e with
  | mk q qid t => cases t <;> rfl

/-- C5: for every event whose kind is `Connect` or `Receive`, both the
destruction path and the extraction path leave the bound peer untouched
and invoke no cleanup action. -/
theorem non_disconnect_no_peer_mutation (T : Type) (e : Event T)
    (h : EventType.isDisconnect e.type = false) :
    Event.drop e = (e, [])
    ∧ (Event.take_type e).final.peer = e.peer
    ∧ (Event.take_type e).trace = [] := by
  cases e with
  | mk p pid t =>
    cases t with
    | Connect => exact ⟨rfl, rfl, rfl⟩
    | Disconnect d => simp [EventType.isDisconnect] at h
    | Receive ch pkt => exact ⟨rfl, rfl, rfl⟩

/-- Witness for C5 on a concrete receive event. -/
theorem non_disconnect_no_peer_mutation_witness :
    EventType.isDisconnect sampleReceiveEvent.type = false
    ∧ (Event.drop sampleReceiveEvent = (sampleReceiveEvent, [])
       ∧ (Event.take_type sampleReceiveEvent).final.peer = sampleReceiveEvent.peer
       ∧ (Event.take_type sampleReceiveEvent).trace = []) :=
  ⟨rfl, non_disconnect_no_peer_mutation Nat sampleReceiveEvent rfl⟩

/-- Sample host whose single slot holds a live peer at generation 4. -/
def sampleHost : Host Nat :=
  { slots := [{ data := some 5, generation := 4 }] }

/-- Sample raw disconnect event (kind 2, handle 0, data word 7). -/
def sampleRawDisconnect : ENetEvent :=
  { type_ := 2, peer := 0, channelID := 0, data := 7,
    packet := { bytes := [], flags := 0 } }

/-- Sample raw event with an unrecognized kind value. -/
def sampleRawBogus : ENetEvent :=
  { type_ := 42, peer := 0, channelID := 0, data := 0,
    packet := { bytes := [], flags := 0 } }

/-- The event `from_sys_event` builds from `sampleRawDisconnect` against
`sampleHost`. -/
def sampleBuiltDisconnect : Event Nat :=
  { peer := { data := some 5, generation := 4 },
    peer_id := { index := 0, generation := 4 },
    type := EventType.Disconnect 7 }

/-- C6: `from_sys_event` returns `None` exactly for the raw `NONE` kind,
and for every other recognized kind it returns some typed event bound to
the resolved peer slot and carrying a freshly minted `PeerID` for that
slot. -/
theorem from_sys_event_none_iff (T : Type) (ev : ENetEvent) (host : Host T) :
    (Event.from_sys_event ev host = FromSysResult.ok none
        ↔ ev.type_ = ENET_EVENT_TYPE_NONE)
    ∧ (ev.type_ = ENET_EVENT_TYPE_CONNECT ∨ ev.type_ = ENET_EVENT_TYPE_DISCONNECT
          ∨ ev.type_ = ENET_EVENT_TYPE_RECEIVE →
        ∃ e : Event T, Event.from_sys_event ev host = FromSysResult.ok (some e)
          ∧ e.peer = Host.resolvePeer host ev.peer
          ∧ e.peer_id = Host.peer_id host ev.peer) := by
  constructor
  · constructor
    · intro h
      by_contra h0
      simp only [ENET_EVENT_TYPE_NONE] at h0
      by_cases h1 : ev.type_ = 1 <;>
        by_cases h2 : ev.type_ = 2 <;>
        by_cases h3 : ev.type_ = 3 <;>
        simp [Event.from_sys_event, ENET_EVENT_TYPE_NONE,
          ENET_EVENT_TYPE_CONNECT, ENET_EVENT_TYPE_DISCONNECT,
          ENET_EVENT_TYPE_RECEIVE, h0, h1, h2, h3] at h
    · intro h
      simp [Event.from_sys_event, h]
  · rintro (h | h | h)
    · exact ⟨{ peer := Host.resolvePeer host ev.peer,
               peer_id := Host.peer_id host ev.peer,
               type := EventType.Connect },
             by simp [Event.from_sys_event, h, ENET_EVENT_TYPE_NONE,
               ENET_EVENT_TYPE_CONNECT], rfl, rfl⟩
    · exact ⟨{ peer := Host.resolvePeer host ev.peer,
               peer_id := Host.peer_id host ev.peer,
               type := EventType.Disconnect ev.data },
             by simp [Event.from_sys_event, h, ENET_EVENT_TYPE_NONE,
               ENET_EVENT_TYPE_CONNECT, ENET_EVENT_TYPE_DISCONNECT], rfl, rfl⟩
    · exact ⟨{ peer := Host.resolvePeer host ev.peer,
               peer_id := Host.peer_id host ev.peer,
               type := EventType.Receive ev.channelID
                 (Packet.from_sys_packet ev.packet) },
             by simp [Event.from_sys_event, h, ENET_EVENT_TYPE_NONE,
               ENET_EVENT_TYPE_CONNECT, ENET_EVENT_TYPE_DISCONNECT,
               ENET_EVENT_TYPE_RECEIVE], rfl, rfl⟩

/-- Witness for C6 on a concrete raw disconnect event. -/
theorem from_sys_event_none_iff_witness :
    (Event.from_sys_event sampleRawDisconnect sampleHost = FromSysResult.ok none
        ↔ sampleRawDisconnect.type_ = ENET_EVENT_TYPE_NONE)
    ∧ (sampleRawDisconnect.type_ = ENET_EVENT_TYPE_CONNECT
          ∨ sampleRawDisconnect.type_ = ENET_EVENT_TYPE_DISCONNECT
          ∨ sampleRawDisconnect.type_ = ENET_EVENT_TYPE_RECEIVE →
        ∃ e : Event Nat,
          Event.from_sys_event sampleRawDisconnect sampleHost
              = FromSysResult.ok (some e)
          ∧ e.peer = Host.resolvePeer sampleHost sampleRawDisconnect.peer
          ∧ e.peer_id = Host.peer_id sampleHost sampleRawDisconnect.peer) :=
  from_sys_event_none_iff Nat sampleRawDisconnect sampleHost

/-- C7: every raw kind outside the recognized set
`{NONE, CONNECT, DISCONNECT, RECEIVE}` makes `from_sys_event` panic with
that kind value; it never returns normally on such input. -/
theorem unrecognized_kind_panics (T : Type) (ev : ENetEvent) (host : Host T)
    (h0 : ev.type_ ≠ ENET_EVENT_TYPE_NONE)
    (h1 : ev.type_ ≠ ENET_EVENT_TYPE_CONNECT)
    (h2 : ev.type_ ≠ ENET_EVENT_TYPE_DISCONNECT)
    (h3 : ev.type_ ≠ ENET_EVENT_TYPE_RECEIVE) :
    Event.from_sys_event ev host = FromSysResult.panic ev.type_ := by
  simp [Event.from_sys_event, h0, h1, h2, h3]

/-- Witness for C7 on the raw kind value 42. -/
theorem unrecognized_kind_panics_witness :
    sampleRawBogus.type_ ≠ ENET_EVENT_TYPE_NONE
    ∧ sampleRawBogus.type_ ≠ ENET_EVENT_TYPE_CONNECT
    ∧ sampleRawBogus.type_ ≠ ENET_EVENT_TYPE_DISCONNECT
    ∧ sampleRawBogus.type_ ≠ ENET_EVENT_TYPE_RECEIVE
    ∧ Event.from_sys_event sampleRawBogus sampleHost
        = FromSysResult.panic sampleRawBogus.type_ :=
  ⟨by decide, by decide, by decide, by decide,
   unrecognized_kind_panics Nat sampleRawBogus sampleHost
     (by decide) (by decide) (by decide) (by decide)⟩

/-- C8: faithful classification of the recognized raw kinds: `CONNECT`
becomes `EventType.Connect` with no payload, `DISCONNECT` carries the raw
32-bit data word, and `RECEIVE` carries the raw channel id and an owned
packet built from the raw payload. -/
theorem raw_kind_classification (T : Type) (host : Host T) (hd ch d : Nat)
    (pkt : RawPacket) :
    Event.from_sys_event
        { type_ := ENET_EVENT_TYPE_CONNECT, peer := hd, channelID := ch,
          data := d, packet := pkt } host
      = FromSysResult.ok (some
          { peer := Host.resolvePeer host hd, peer_id := Host.peer_id host hd,
            type := EventType.Connect })
    ∧ Event.from_sys_event
        { type_ := ENET_EVENT_TYPE_DISCONNECT, peer := hd, channelID := ch,
          data := d, packet := pkt } host
      = FromSysResult.ok (some
          { peer := Host.resolvePeer host hd, peer_id := Host.peer_id host hd,
            type := EventType.Disconnect d })
    ∧ Event.from_sys_event
        { type_ := ENET_EVENT_TYPE_RECEIVE, peer := hd, channelID := ch,
          data := d, packet := pkt } host
      = FromSysResult.ok (some
          { peer := Host.resolvePeer host hd, peer_id := Host.peer_id host hd,
            type := EventType.Receive ch (Packet.from_sys_packet pkt) }) :=
  ⟨rfl, rfl, rfl⟩

/-- C9: construction performs no peer cleanup: any event returned by
`from_sys_event` still carries the slot's payload and generation untouched,
and the cleanup of a `Disconnect` event is deferred to its consumption,
where it fires at the slot's original generation. -/
theorem construction_defers_cleanup (T : Type) (ev : ENetEvent)
    (host : Host T) (e : Event T)
    (h : Event.from_sys_event ev host = FromSysResult.ok (some e)) :
    e.peer = Host.resolvePeer host ev.peer
    ∧ e.peer.data = (Host.resolvePeer host ev.peer).data
    ∧ e.peer.generation = (Host.resolvePeer host ev.peer).generation
    ∧ e.peer_id = Host.peer_id host ev.peer
    ∧ Event.drop e = Event.cleanup_after_disconnect e
    ∧ (EventType.isDisconnect e.type = true →
        (Event.drop e).2
          = [Action.peerCleanup (Host.resolvePeer host ev.peer).generation]) := by
  by_cases h0 : ev.type_ = 0
  · simp [Event.from_sys_event, ENET_EVENT_TYPE_NONE, h0] at h
  · by_cases h1 : ev.type_ = 1
    · simp [Event.from_sys_event, ENET_EVENT_TYPE_NONE,
        ENET_EVENT_TYPE_CONNECT, h0, h1] at h
      subst h
      exact ⟨rfl, rfl, rfl, rfl, rfl, by simp [EventType.isDisconnect]⟩
    · by_cases h2 : ev.type_ = 2
      · simp [Event.from_sys_event, ENET_EVENT_TYPE_NONE,
          ENET_EVENT_TYPE_CONNECT, ENET_EVENT_TYPE_DISCONNECT, h0, h1, h2] at h
        subst h
        refine ⟨rfl, rfl, rfl, rfl, rfl, ?_⟩
        intro _
        simp [Event.drop, Event.cleanup_after_disconnect,
          Peer.cleanup_after_disconnect]
      · by_cases h3 : ev.type_ = 3
        · simp [Event.from_sys_event, ENET_EVENT_TYPE_NONE,
            ENET_EVENT_TYPE_CONNECT, ENET_EVENT_TYPE_DISCONNECT,
            ENET_EVENT_TYPE_RECEIVE, h0, h1, h2, h3] at h
          subst h
          exact ⟨rfl, rfl, rfl, rfl, rfl, by simp [EventType.isDisconnect]⟩
        · simp [Event.from_sys_event, ENET_EVENT_TYPE_NONE,
            ENET_EVENT_TYPE_CONNECT, ENET_EVENT_TYPE_DISCONNECT,
            ENET_EVENT_TYPE_RECEIVE, h0, h1, h2, h3] at h

/-- Witness for C9 on a concrete raw disconnect event. -/
theorem construction_defers_cleanup_witness :
    Event.from_sys_event sampleRawDisconnect sampleHost
        = FromSysResult.ok (some sampleBuiltDisconnect)
    ∧ (sampleBuiltDisconnect.peer
          = Host.resolvePeer sampleHost sampleRawDisconnect.peer
       ∧ sampleBuiltDisconnect.peer.data
          = (Host.resolvePeer sampleHost sampleRawDisconnect.peer).data
       ∧ sampleBuiltDisconnect.peer.generation
          = (Host.resolvePeer sampleHost sampleRawDisconnect.peer).generation
       ∧ sampleBuiltDisconnect.peer_id
          = Host.peer_id sampleHost sampleRawDisconnect.peer
       ∧ Event.drop sampleBuiltDisconnect
          = Event.cleanup_after_disconnect sampleBuiltDisconnect
       ∧ (EventType.isDisconnect sampleBuiltDisconnect.type = true →
           (Event.drop sampleBuiltDisconnect).2
             = [Action.peerCleanup
                 (Host.resolvePeer sampleHost sampleRawDisconnect.peer).generation])) :=
  ⟨rfl, construction_defers_cleanup Nat sampleRawDisconnect sampleHost
    sampleBuiltDisconnect rfl⟩

/-- C10: the read accessors `peer()`, `peer_id()` and `r#type()` are pure:
they return the corresponding component, leave the event state exactly as
it was, and do not touch the bound peer's payload or generation. -/
theorem accessors_pure (T : Type) (e : Event T) :
    (Event.peerRef e).2 = e ∧ (Event.peerIdVal e).2 = e
    ∧ (Event.typeRef e).2 = e
    ∧ (Event.peerRef e).1 = e.peer ∧ (Event.peerIdVal e).1 = e.peer_id
    ∧ (Event.typeRef e).1 = e.type
    ∧ ((Event.peerRef e).2).type = e.type
    ∧ ((Event.peerIdVal e).2).peer_id = e.peer_id
    ∧ ((Event.peerRef e).1).data = e.peer.data
    ∧ ((Event.peerRef e).1).generation = e.peer.generation :=
  ⟨rfl, rfl, rfl, rfl, rfl, rfl, rfl, rfl, rfl, rfl⟩

end Enet
